import Mathlib

/-!
Verification development for the researchlyassist real-time AI session and
caching layer.  The definitions below are a shallow embedding of the server
code: the Mongo collections become association lists inside a `World` value,
each external provider call (Gemini model, cache manager, vector index, JWT
verification) is resolved by an `Env` oracle supplied per invocation, and the
`onChunk`/`onComplete`/`onError` callback protocol together with the provider
side effects is recorded as an event trace.  Timestamps are naturals
(milliseconds), matching `Date.now()`.
-/

namespace RA

/-- Message roles, from the `ChatMessageSchema` enum `['user', 'assistant']`. -/
inductive Role
  | user
  | assistant
  deriving DecidableEq

/-- One chat message, from `IChatMessage` in `models/ChatSession.ts`. -/
structure ChatMessage where
  role : Role
  content : String
  timestamp : Nat
  deriving DecidableEq

/-- One chat-session document, from `IChatSession` (Gemini-cache schema):
`messages`, `geminiCacheName` (nullable), `cacheExpiresAt` (nullable date). -/
structure SessionDoc where
  messages : List ChatMessage
  geminiCacheName : Option String
  cacheExpiresAt : Option Nat
  deriving DecidableEq

/-- A paper document as consumed by the AI layer: owner id, title, file url,
derived summary. -/
structure PaperDoc where
  userId : String
  title : String
  fileUrl : Option String
  summary : Option String
  deriving DecidableEq

/-- The persistent store: the `papers` collection keyed by `_id` and the
`chatsessions` collection keyed by the unique `(paperId, userId)` index. -/
structure World where
  papers : List (String × PaperDoc)
  sessions : List ((String × String) × SessionDoc)
  deriving DecidableEq

/-- Association-list lookup (Mongo `findOne` by key). -/
def assocLookup {α β : Type} [DecidableEq α] : List (α × β) → α → Option β
  | [], _ => none
  | (k, v) :: rest, key => if k = key then some v else assocLookup rest key

/-- Remove every binding of a key (Mongo `deleteOne` on a unique index). -/
def assocRemove {α β : Type} [DecidableEq α] : List (α × β) → α → List (α × β)
  | [], _ => []
  | (k, v) :: rest, key =>
    if k = key then assocRemove rest key else (k, v) :: assocRemove rest key

/-- Replace-or-insert a binding (Mongo `save` of a whole document). -/
def assocUpsert {α β : Type} [DecidableEq α] (l : List (α × β)) (k : α) (v : β) :
    List (α × β) :=
  (k, v) :: assocRemove l k

def findSessionW (w : World) (pid uid : String) : Option SessionDoc :=
  assocLookup w.sessions (pid, uid)

def saveSessionW (w : World) (pid uid : String) (s : SessionDoc) : World :=
  { w with sessions := assocUpsert w.sessions (pid, uid) s }

def removeSessionW (w : World) (pid uid : String) : World :=
  { w with sessions := assocRemove w.sessions (pid, uid) }

def findPaperW (w : World) (pid : String) : Option PaperDoc :=
  assocLookup w.papers pid

def savePaperW (w : World) (pid : String) (p : PaperDoc) : World :=
  { w with papers := assocUpsert w.papers pid p }

/-- JavaScript string truthiness for nullable strings: `null` and `''` are
falsy, everything else truthy. -/
def truthyStr : Option String → Bool
  | some s => s != ""
  | none => false

/-- The JavaScript expression `s || null` on a nullable string. -/
def jsStrOrNull : Option String → Option String
  | some s => if s = "" then none else some s
  | none => none

/-- From `controllers/ai.ts`: `const CACHE_TTL_SECONDS = 3600`. -/
def CACHE_TTL_SECONDS : Nat := 3600

/-- Outcome of the provider call `cacheManager.create(...)`:
it returns a cache object whose `name` may be absent, or it throws a
"too small" error, or it throws some other error. -/
inductive CreateOutcome
  | created (name : Option String)
  | tooSmall
  | failure
  deriving DecidableEq

/-- Outcome of a streamed model call: the chunk sequence on success, or the
chunks delivered before the stream (or the call itself) throws. -/
inductive StreamOutcome
  | ok (chunks : List String)
  | failAfter (chunks : List String)
  deriving DecidableEq

/-- Per-invocation resolution of every external call (provider oracle).
`remoteDeleteOk` is carried but never consulted because
`clearChatHistory` swallows remote cache-deletion failures. -/
structure Env where
  now : Nat
  fetchOk : Bool
  pdfBase64 : String
  remoteGetOk : Bool
  createOutcome : CreateOutcome
  chatGetOk : Bool
  stream : StreamOutcome
  saveOk : Bool
  remoteDeleteOk : Bool
  localDeleteOk : Bool
  deriving DecidableEq

/-- Observable events of one operation: provider calls, session/paper saves,
and the `onChunk`/`onComplete`/`onError` callbacks. -/
inductive Ev
  | remoteGet (name : String)
  | cacheCreate
  | cacheDelete (name : String)
  | sessionSave
  | chunk (s : String)
  | complete (s : String)
  | error (s : String)
  deriving DecidableEq

/-- `getOrCreateChatSession` from `controllers/ai.ts`: find the session for
`(paperId, userId)` or create (and persist) an empty one. -/
def getOrCreateChatSession (w : World) (pid uid : String) : SessionDoc × World :=
  match findSessionW w pid uid with
  | some s => (s, w)
  | none =>
    let s : SessionDoc := { messages := [], geminiCacheName := none, cacheExpiresAt := none }
    (s, saveSessionW w pid uid s)

/-- `tryCreateCache` from `controllers/ai.ts`: create a provider cache and
return `cache.name || null`; a "too small" error yields `null`
(silent degradation); any other error propagates. -/
def tryCreateCache (co : CreateOutcome) : Except Unit (Option String) :=
  match co with
  | .created name => .ok (jsStrOrNull name)
  | .tooSmall => .ok none
  | .failure => .error ()

/-- Result of `getOrCreateCache`: the `{cacheName, session}` value (or a
propagated exception), the store afterwards, and the event trace. -/
structure EnsureOut where
  res : Except Unit (Option String × SessionDoc)
  w : World
  tr : List Ev

/-- The session with the freshly created cache handle recorded:
`session.geminiCacheName = cacheName` and
`session.cacheExpiresAt = new Date(Date.now() + CACHE_TTL_SECONDS * 1000)`. -/
def cacheStamped (env : Env) (session : SessionDoc) (cn : Option String) : SessionDoc :=
  { session with geminiCacheName := cn,
                 cacheExpiresAt := some (env.now + CACHE_TTL_SECONDS * 1000) }

/-- The clearing of stale handle fields done in memory (not persisted) when
remote confirmation fails. -/
def cacheCleared (session : SessionDoc) : SessionDoc :=
  { session with geminiCacheName := none, cacheExpiresAt := none }

/-- The creation tail of `getOrCreateCache`: call `tryCreateCache`; if a
truthy name came back, stamp it onto the session and save the session. -/
def createPathStep (env : Env) (w : World) (pid uid : String) (session : SessionDoc)
    (tr0 : List Ev) : EnsureOut :=
  match tryCreateCache env.createOutcome with
  | .error _ => ⟨.error (), w, tr0 ++ [Ev.cacheCreate]⟩
  | .ok cacheName =>
    if truthyStr cacheName then
      ⟨.ok (cacheName, cacheStamped env session cacheName),
       saveSessionW w pid uid (cacheStamped env session cacheName),
       tr0 ++ [Ev.cacheCreate, Ev.sessionSave]⟩
    else
      ⟨.ok (cacheName, session), w, tr0 ++ [Ev.cacheCreate]⟩

/-- The JS guard
`session.geminiCacheName && session.cacheExpiresAt && session.cacheExpiresAt > new Date()`. -/
def hasLiveHandle (env : Env) (session : SessionDoc) : Bool :=
  truthyStr session.geminiCacheName &&
    (match session.cacheExpiresAt with
     | some exp => decide (env.now < exp)
     | none => false)

/-- `getOrCreateCache` after the session fetch: if the session holds a truthy
cache name and a future expiry, confirm it remotely (`cacheManager.get`) and
return it on success; on remote failure clear the stale handle fields in
memory and fall through; otherwise run the creation tail. -/
def ensureCore (env : Env) (session : SessionDoc) (w1 : World) (pid uid : String) :
    EnsureOut :=
  if hasLiveHandle env session then
    if env.remoteGetOk then
      ⟨.ok (session.geminiCacheName, session), w1,
       [Ev.remoteGet (session.geminiCacheName.getD "")]⟩
    else
      createPathStep env w1 pid uid (cacheCleared session)
        [Ev.remoteGet (session.geminiCacheName.getD "")]
  else
    createPathStep env w1 pid uid session []

/-- `getOrCreateCache` from `controllers/ai.ts`: fetch or create the session,
then run the revalidate-or-create logic. -/
def getOrCreateCache (env : Env) (w : World) (pid uid : String) : EnsureOut :=
  ensureCore env (getOrCreateChatSession w pid uid).1
    (getOrCreateChatSession w pid uid).2 pid uid

/-- Result of `getPaperForAI` in `controllers/ai.ts`: either the returned
`error` string, or the paper plus the fetched base64 document. -/
inductive PaperFetch
  | err (msg : String)
  | ok (paper : PaperDoc) (pdfBase64 : String)
  deriving DecidableEq

/-- `getPaperForAI` from `controllers/ai.ts`: `Paper.findOne({_id, userId})`
(absent and not-owned are indistinguishable), then the `fileUrl` truthiness
check, then the PDF fetch (which may throw). -/
def getPaperForAI (env : Env) (w : World) (pid uid : String) : Except Unit PaperFetch :=
  match findPaperW w pid with
  | none => .ok (.err "Paper not found")
  | some paper =>
    if paper.userId = uid then
      if truthyStr paper.fileUrl then
        if env.fetchOk then .ok (.ok paper env.pdfBase64) else .error ()
      else .ok (.err "Paper has no PDF file")
    else .ok (.err "Paper not found")

/-- The two `session.messages.push(...)` entries of a completed exchange:
the user message and the assistant reply, both stamped with the current
time. -/
def exchangeAppended (env : Env) (session : SessionDoc) (message full : String) :
    SessionDoc :=
  { session with messages := session.messages ++
      [{ role := Role.user, content := message, timestamp := env.now },
       { role := Role.assistant, content := full, timestamp := env.now }] }

/-- The streaming tail of `chatWithPaperStream`: consume the model stream,
forwarding each chunk; on success push the user/assistant pair onto
`session.messages`, save the session, and emit completion; any throw is
caught by the outer handler which emits the chat error message. -/
def chatModelPhase (env : Env) (w1 : World) (pid uid message : String)
    (session : SessionDoc) (tr : List Ev) : World × List Ev :=
  match env.stream with
  | .failAfter cs =>
    (w1, tr ++ cs.map Ev.chunk ++ [Ev.error "Failed to process chat message"])
  | .ok cs =>
    if env.saveOk then
      (saveSessionW w1 pid uid (exchangeAppended env session message (String.join cs)),
       tr ++ cs.map Ev.chunk ++ [Ev.sessionSave, Ev.complete (String.join cs)])
    else
      (w1, tr ++ cs.map Ev.chunk ++ [Ev.error "Failed to process chat message"])

/-- The part of `chatWithPaperStream` after the cache-ensure step: re-fetch
the cached content when a truthy cache name is present (`cacheManager.get`,
which may throw), then run the streaming tail. -/
def chatWithEnsure (env : Env) (pid uid message : String) (eo : EnsureOut) :
    World × List Ev :=
  match eo.res with
  | .error _ => (eo.w, eo.tr ++ [Ev.error "Failed to process chat message"])
  | .ok (cacheName, session) =>
    if truthyStr cacheName then
      if env.chatGetOk then
        chatModelPhase env eo.w pid uid message session
          (eo.tr ++ [Ev.remoteGet (cacheName.getD "")])
      else
        (eo.w, eo.tr ++ [Ev.remoteGet (cacheName.getD ""),
                         Ev.error "Failed to process chat message"])
    else chatModelPhase env eo.w pid uid message session eo.tr

/-- `chatWithPaperStream` from `controllers/ai.ts` (the version wired into the
websocket AI handlers): resolve the paper, ensure the cache, then stream the
reply and persist the exchange. -/
def chatWithPaperStream (env : Env) (w : World) (pid uid message : String) :
    World × List Ev :=
  match getPaperForAI env w pid uid with
  | .error _ => (w, [Ev.error "Failed to process chat message"])
  | .ok (.err e) => (w, [Ev.error e])
  | .ok (.ok _ _) => chatWithEnsure env pid uid message (getOrCreateCache env w pid uid)

/-- `generateSummaryStream` from `controllers/ai.ts`: resolve the paper,
stream the summary, persist it on the paper, emit completion; failures are
caught and reported as the summary error message. -/
def generateSummaryStream (env : Env) (w : World) (pid uid : String) :
    World × List Ev :=
  match getPaperForAI env w pid uid with
  | .error _ => (w, [Ev.error "Failed to generate summary"])
  | .ok (.err e) => (w, [Ev.error e])
  | .ok (.ok paper _) =>
    match env.stream with
    | .failAfter cs => (w, cs.map Ev.chunk ++ [Ev.error "Failed to generate summary"])
    | .ok cs =>
      if env.saveOk then
        (savePaperW w pid { paper with summary := some (String.join cs) },
         cs.map Ev.chunk ++ [Ev.complete (String.join cs)])
      else
        (w, cs.map Ev.chunk ++ [Ev.error "Failed to generate summary"])

/-- `getPaperForAI` from `AI/ragChain.ts` (no PDF fetch): the returned
`(error, paper)` pair. -/
def getPaperForAIRag (w : World) (pid uid : String) : Option String × Option PaperDoc :=
  match findPaperW w pid with
  | none => (some "Paper not found", none)
  | some paper =>
    if paper.userId = uid then
      if truthyStr paper.fileUrl then (none, some paper)
      else (some "Paper has no PDF file", none)
    else (some "Paper not found", none)

/-- `defineTermStream` from `AI/ragChain.ts`: resolve the paper, build the
context section (retrieval failures swallowed), stream the definition, emit
completion; it never touches the session messages. -/
def defineTermStream (env : Env) (w : World) (pid uid _term : String)
    (_sctx : Option String) : World × List Ev :=
  match getPaperForAIRag w pid uid with
  | (some e, _) => (w, [Ev.error e])
  | (none, some _) =>
    match env.stream with
    | .failAfter cs => (w, cs.map Ev.chunk ++ [Ev.error "Failed to define term"])
    | .ok cs => (w, cs.map Ev.chunk ++ [Ev.complete (String.join cs)])
  | (none, none) => (w, [Ev.error "Unknown error"])

/-- `getChatHistory` from `controllers/ai.ts`: `session?.messages || []`. -/
def getChatHistory (w : World) (pid uid : String) : List ChatMessage :=
  match findSessionW w pid uid with
  | some s => s.messages
  | none => []

/-- `clearChatHistory` from `controllers/ai.ts`: best-effort remote cache
deletion (failures swallowed), then `ChatSession.deleteOne`; a local storage
failure yields the error result and leaves the record in place.
`clearTrace` is the best-effort remote deletion attempt: `cacheManager.delete`
is called on a truthy stored name and its own failure is swallowed
(`remoteDeleteOk` is never consulted). -/
def clearTrace (w : World) (pid uid : String) : List Ev :=
  match findSessionW w pid uid with
  | some s =>
    match s.geminiCacheName with
    | some n => if n = "" then [] else [Ev.cacheDelete n]
    | none => []
  | none => []

def clearChatHistory (env : Env) (w : World) (pid uid : String) :
    World × List Ev × Bool :=
  if env.localDeleteOk then
    (removeSessionW w pid uid, clearTrace w pid uid, true)
  else
    (w, clearTrace w pid uid, false)

/-- The identity bound to an accepted connection, from `websocket/types.ts`. -/
structure AuthenticatedUser where
  userId : String
  firebaseUid : String
  email : String
  deriving DecidableEq

/-- Outcome of `jwt.verify`: a decoded user, or one of the distinguished
error classes the middleware catches. -/
inductive VerifyOutcome
  | valid (u : AuthenticatedUser)
  | expiredTok
  | invalidTok
  | otherErr
  deriving DecidableEq

/-- `authenticateSocket` from `websocket/auth.ts`: reject a falsy handshake
token, verify it, bind the decoded identity, and map each verification
failure class to its error. -/
def authenticateSocket (token : Option String) (vo : VerifyOutcome) :
    Except String AuthenticatedUser :=
  if truthyStr token then
    match vo with
    | .valid u => .ok u
    | .expiredTok => .error "Token expired"
    | .invalidTok => .error "Invalid token"
    | .otherErr => .error "Authentication failed"
  else
    .error "Authentication required"

/-- The websocket gateway admission from `websocket/index.ts`:
`io.use(authenticateSocket)` runs before any `connection` handler, so a
middleware error rejects the handshake and no handlers are registered;
success admits the connection bound to the verified identity. -/
def gatewayAdmit (token : Option String) (vo : VerifyOutcome) :
    Option AuthenticatedUser :=
  match authenticateSocket token vo with
  | .ok u => some u
  | .error _ => none

/-- Inbound events registered by `registerNotesHandlers`
(`websocket/handlers/notes.ts`). -/
def registerNotesHandlersEvents : List String := ["notes:get", "notes:update"]

/-- Inbound events registered by `registerAIHandlers`
(`websocket/handlers/ai.ts`): the full list of `socket.on` registrations. -/
def registerAIHandlersEvents : List String :=
  ["ai:summary", "ai:chat", "ai:chat:history", "ai:chat:clear"]

/-- All inbound operations the gateway listens for
(`initializeWebSocket` registers exactly the notes and AI handlers). -/
def serverInboundEvents : List String :=
  registerNotesHandlersEvents ++ registerAIHandlersEvents

/-- The keys of `ClientToServerEvents` in `server/src/websocket/types.ts`. -/
def clientToServerEventNames : List String :=
  ["notes:update", "notes:get", "ai:summary", "ai:chat", "ai:chat:history", "ai:chat:clear"]

/-- The events the client hook library emits (`socket.emit` calls in
`client/src/lib/websocket/socket.ts`, including `useAIDefine`). -/
def clientEmittedEvents : List String :=
  ["notes:get", "notes:update", "ai:summary", "ai:chat", "ai:chat:history",
   "ai:chat:clear", "ai:define"]

/-- The chunk strings of a trace, in emission order. -/
def chunksOf (evs : List Ev) : List String :=
  evs.filterMap fun e =>
    match e with
    | .chunk s => some s
    | _ => none

/-- Every session history in the store has even length (observed through
`getChatHistory`, which reads the unique `(paperId, userId)` binding). -/
def allEven (w : World) : Prop :=
  ∀ pid uid : String, Even (getChatHistory w pid uid).length

/-- One queued chat invocation: its provider oracle and
`(paperId, userId, message)`. -/
structure ChatCall where
  env : Env
  pid : String
  uid : String
  message : String

/-- Run a sequence of chat invocations against the store. -/
def runChats : List ChatCall → World → World
  | [], w => w
  | c :: rest, w => runChats rest (chatWithPaperStream c.env w c.pid c.uid c.message).1

/-- Cache-bookkeeping events: everything except the callback events. -/
def pureCacheEv : Ev → Bool
  | .remoteGet _ => true
  | .cacheCreate => true
  | .cacheDelete _ => true
  | .sessionSave => true
  | _ => false


theorem assocLookup_upsert_self {α β : Type} [DecidableEq α] (l : List (α × β)) (k : α) (v : β) :
    assocLookup (assocUpsert l k v) k = some v := by
  simp [assocUpsert, assocLookup]

theorem assocLookup_remove_ne {α β : Type} [DecidableEq α] (l : List (α × β)) (k k' : α)
    (h : k' ≠ k) : assocLookup (assocRemove l k) k' = assocLookup l k' := by
  induction l with
  | nil => rfl
  | cons hd tl ih =>
    obtain ⟨a, b⟩ := hd
    by_cases hak : a = k
    · subst hak
      have hne : ¬ a = k' := fun hh => h hh.symm
      simp [assocRemove, assocLookup, hne, ih]
    · simp only [assocRemove, if_neg hak, assocLookup]
      by_cases hak' : a = k'
      · simp [hak']
      · simp [hak', ih]

theorem assocLookup_remove_self {α β : Type} [DecidableEq α] (l : List (α × β)) (k : α) :
    assocLookup (assocRemove l k) k = none := by
  induction l with
  | nil => rfl
  | cons hd tl ih =>
    obtain ⟨a, b⟩ := hd
    by_cases hak : a = k <;> simp [assocRemove, hak, assocLookup, ih]

theorem assocLookup_upsert_ne {α β : Type} [DecidableEq α] (l : List (α × β)) (k k' : α)
    (v : β) (h : k' ≠ k) : assocLookup (assocUpsert l k v) k' = assocLookup l k' := by
  have hne : ¬ k = k' := fun hh => h hh.symm
  simp [assocUpsert, assocLookup, hne, assocLookup_remove_ne l k k' h]

theorem getChatHistory_save_self (w : World) (pid uid : String) (s : SessionDoc) :
    getChatHistory (saveSessionW w pid uid s) pid uid = s.messages := by
  simp [getChatHistory, findSessionW, saveSessionW, assocLookup_upsert_self]

theorem getChatHistory_save_ne (w : World) (pid uid : String) (s : SessionDoc)
    (pid' uid' : String) (h : (pid', uid') ≠ (pid, uid)) :
    getChatHistory (saveSessionW w pid uid s) pid' uid' = getChatHistory w pid' uid' := by
  simp only [getChatHistory, findSessionW, saveSessionW,
    assocLookup_upsert_ne _ _ _ _ h]

theorem gocs_eq_found (w : World) (pid uid : String) (s : SessionDoc)
    (h : findSessionW w pid uid = some s) :
    getOrCreateChatSession w pid uid = (s, w) := by
  unfold getOrCreateChatSession
  rw [h]

theorem gocs_eq_missing (w : World) (pid uid : String)
    (h : findSessionW w pid uid = none) :
    getOrCreateChatSession w pid uid =
      (⟨[], none, none⟩, saveSessionW w pid uid ⟨[], none, none⟩) := by
  unfold getOrCreateChatSession
  rw [h]

theorem gocs_messages (w : World) (pid uid : String) :
    ((getOrCreateChatSession w pid uid).1).messages = getChatHistory w pid uid := by
  cases h : findSessionW w pid uid with
  | some s => rw [gocs_eq_found w pid uid s h]; simp [getChatHistory, h]
  | none => rw [gocs_eq_missing w pid uid h]; simp [getChatHistory, h]

theorem gocs_history (w : World) (pid uid : String) :
    getChatHistory (getOrCreateChatSession w pid uid).2 pid uid = getChatHistory w pid uid := by
  cases h : findSessionW w pid uid with
  | some s => rw [gocs_eq_found w pid uid s h]
  | none =>
    rw [gocs_eq_missing w pid uid h]
    show getChatHistory (saveSessionW w pid uid ⟨[], none, none⟩) pid uid = _
    rw [getChatHistory_save_self]
    simp [getChatHistory, h]

theorem gocs_history_ne (w : World) (pid uid pid' uid' : String)
    (h : (pid', uid') ≠ (pid, uid)) :
    getChatHistory (getOrCreateChatSession w pid uid).2 pid' uid' =
      getChatHistory w pid' uid' := by
  cases hf : findSessionW w pid uid with
  | some s => rw [gocs_eq_found w pid uid s hf]
  | none =>
    rw [gocs_eq_missing w pid uid hf]
    exact getChatHistory_save_ne w pid uid _ pid' uid' h

/-- Leaf shapes of the creation tail. -/
theorem createPathStep_cases (env : Env) (w : World) (pid uid : String)
    (session : SessionDoc) (tr0 : List Ev) :
    createPathStep env w pid uid session tr0 = ⟨.error (), w, tr0 ++ [Ev.cacheCreate]⟩ ∨
    (∃ cn, truthyStr cn = false ∧
      createPathStep env w pid uid session tr0 =
        ⟨.ok (cn, session), w, tr0 ++ [Ev.cacheCreate]⟩) ∨
    (∃ cn, truthyStr cn = true ∧
      createPathStep env w pid uid session tr0 =
        ⟨.ok (cn, cacheStamped env session cn),
         saveSessionW w pid uid (cacheStamped env session cn),
         tr0 ++ [Ev.cacheCreate, Ev.sessionSave]⟩) := by
  unfold createPathStep
  cases h : tryCreateCache env.createOutcome with
  | error e => left; rfl
  | ok cn =>
    by_cases ht : truthyStr cn = true
    · right; right; exact ⟨cn, ht, by simp [ht]⟩
    · right; left
      exact ⟨cn, by simpa using ht, by simp [ht]⟩

theorem cacheStamped_messages (env : Env) (session : SessionDoc) (cn : Option String) :
    (cacheStamped env session cn).messages = session.messages := rfl

theorem cacheCleared_messages (session : SessionDoc) :
    (cacheCleared session).messages = session.messages := rfl

theorem cps_history (env : Env) (w : World) (pid uid : String) (session : SessionDoc)
    (tr0 : List Ev) (hm : session.messages = getChatHistory w pid uid) :
    getChatHistory (createPathStep env w pid uid session tr0).w pid uid =
      getChatHistory w pid uid := by
  rcases createPathStep_cases env w pid uid session tr0 with h | ⟨cn, _, h⟩ | ⟨cn, _, h⟩
  · rw [h]
  · rw [h]
  · rw [h]
    show getChatHistory (saveSessionW w pid uid (cacheStamped env session cn)) pid uid = _
    rw [getChatHistory_save_self, cacheStamped_messages, hm]

theorem cps_history_ne (env : Env) (w : World) (pid uid : String) (session : SessionDoc)
    (tr0 : List Ev) (pid' uid' : String) (h : (pid', uid') ≠ (pid, uid)) :
    getChatHistory (createPathStep env w pid uid session tr0).w pid' uid' =
      getChatHistory w pid' uid' := by
  rcases createPathStep_cases env w pid uid session tr0 with hc | ⟨cn, _, hc⟩ | ⟨cn, _, hc⟩
  · rw [hc]
  · rw [hc]
  · rw [hc]
    show getChatHistory (saveSessionW w pid uid (cacheStamped env session cn)) pid' uid' = _
    exact getChatHistory_save_ne w pid uid _ pid' uid' h

theorem cps_res_messages (env : Env) (w : World) (pid uid : String) (session : SessionDoc)
    (tr0 : List Ev) (cn : Option String) (s : SessionDoc)
    (h : (createPathStep env w pid uid session tr0).res = .ok (cn, s)) :
    s.messages = session.messages := by
  rcases createPathStep_cases env w pid uid session tr0 with hc | ⟨cn', _, hc⟩ | ⟨cn', _, hc⟩ <;>
    rw [hc] at h <;> simp at h
  · rw [← h.2]
  · rw [← h.2, cacheStamped_messages]

theorem cps_tr_pure (env : Env) (w : World) (pid uid : String) (session : SessionDoc)
    (tr0 : List Ev) (h0 : ∀ e ∈ tr0, pureCacheEv e = true) :
    ∀ e ∈ (createPathStep env w pid uid session tr0).tr, pureCacheEv e = true := by
  rcases createPathStep_cases env w pid uid session tr0 with hc | ⟨cn, _, hc⟩ | ⟨cn, _, hc⟩ <;>
    rw [hc] <;> intro e he
  · rcases List.mem_append.mp he with h1 | h1
    · exact h0 e h1
    · simp at h1; subst h1; rfl
  · rcases List.mem_append.mp he with h1 | h1
    · exact h0 e h1
    · simp at h1; subst h1; rfl
  · rcases List.mem_append.mp he with h1 | h1
    · exact h0 e h1
    · simp at h1
      rcases h1 with h1 | h1 <;> subst h1 <;> rfl

theorem ensureCore_history (env : Env) (session : SessionDoc) (w1 : World) (pid uid : String)
    (hm : session.messages = getChatHistory w1 pid uid) :
    getChatHistory (ensureCore env session w1 pid uid).w pid uid =
      getChatHistory w1 pid uid := by
  unfold ensureCore
  by_cases h1 : hasLiveHandle env session = true
  · rw [if_pos h1]
    by_cases h2 : env.remoteGetOk = true
    · rw [if_pos h2]
    · rw [if_neg h2]
      exact cps_history env w1 pid uid (cacheCleared session) _
        (by rw [cacheCleared_messages]; exact hm)
  · rw [if_neg h1]
    exact cps_history env w1 pid uid session _ hm

theorem ensureCore_history_ne (env : Env) (session : SessionDoc) (w1 : World)
    (pid uid pid' uid' : String) (h : (pid', uid') ≠ (pid, uid)) :
    getChatHistory (ensureCore env session w1 pid uid).w pid' uid' =
      getChatHistory w1 pid' uid' := by
  unfold ensureCore
  by_cases h1 : hasLiveHandle env session = true
  · rw [if_pos h1]
    by_cases h2 : env.remoteGetOk = true
    · rw [if_pos h2]
    · rw [if_neg h2]
      exact cps_history_ne env w1 pid uid (cacheCleared session) _ pid' uid' h
  · rw [if_neg h1]
    exact cps_history_ne env w1 pid uid session _ pid' uid' h

theorem ensureCore_res_messages (env : Env) (session : SessionDoc) (w1 : World)
    (pid uid : String) (cn : Option String) (s : SessionDoc)
    (h : (ensureCore env session w1 pid uid).res = .ok (cn, s)) :
    s.messages = session.messages := by
  unfold ensureCore at h
  by_cases h1 : hasLiveHandle env session = true
  · rw [if_pos h1] at h
    by_cases h2 : env.remoteGetOk = true
    · rw [if_pos h2] at h
      simp at h
      rw [← h.2]
    · rw [if_neg h2] at h
      rw [cps_res_messages env w1 pid uid (cacheCleared session) _ cn s h,
        cacheCleared_messages]
  · rw [if_neg h1] at h
    exact cps_res_messages env w1 pid uid session _ cn s h

theorem ensureCore_tr_pure (env : Env) (session : SessionDoc) (w1 : World)
    (pid uid : String) :
    ∀ e ∈ (ensureCore env session w1 pid uid).tr, pureCacheEv e = true := by
  unfold ensureCore
  by_cases h1 : hasLiveHandle env session = true
  · rw [if_pos h1]
    by_cases h2 : env.remoteGetOk = true
    · rw [if_pos h2]
      intro e he
      simp at he
      subst he
      rfl
    · rw [if_neg h2]
      exact cps_tr_pure env w1 pid uid (cacheCleared session) _
        (by intro e he; simp at he; subst he; rfl)
  · rw [if_neg h1]
    exact cps_tr_pure env w1 pid uid session _ (by intro e he; simp at he)

theorem ensure_history (env : Env) (w : World) (pid uid : String) :
    getChatHistory (getOrCreateCache env w pid uid).w pid uid = getChatHistory w pid uid := by
  unfold getOrCreateCache
  rw [ensureCore_history env _ _ pid uid
    ((gocs_messages w pid uid).trans (gocs_history w pid uid).symm)]
  exact gocs_history w pid uid

theorem ensure_history_ne (env : Env) (w : World) (pid uid pid' uid' : String)
    (h : (pid', uid') ≠ (pid, uid)) :
    getChatHistory (getOrCreateCache env w pid uid).w pid' uid' =
      getChatHistory w pid' uid' := by
  unfold getOrCreateCache
  rw [ensureCore_history_ne env _ _ pid uid pid' uid' h]
  exact gocs_history_ne w pid uid pid' uid' h

theorem ensure_res_messages (env : Env) (w : World) (pid uid : String)
    (cn : Option String) (s : SessionDoc)
    (h : (getOrCreateCache env w pid uid).res = .ok (cn, s)) :
    s.messages = getChatHistory w pid uid := by
  unfold getOrCreateCache at h
  rw [ensureCore_res_messages env _ _ pid uid cn s h]
  exact gocs_messages w pid uid

theorem ensure_tr_pure (env : Env) (w : World) (pid uid : String) :
    ∀ e ∈ (getOrCreateCache env w pid uid).tr, pureCacheEv e = true := by
  unfold getOrCreateCache
  exact ensureCore_tr_pure env _ _ pid uid

theorem chunksOf_append (a b : List Ev) :
    chunksOf (a ++ b) = chunksOf a ++ chunksOf b := by
  simp [chunksOf, List.filterMap_append]

theorem chunksOf_map_chunk (cs : List String) : chunksOf (cs.map Ev.chunk) = cs := by
  induction cs with
  | nil => rfl
  | cons c cs ih => simpa [chunksOf] using ih

theorem chunksOf_pure (l : List Ev) (h : ∀ e ∈ l, pureCacheEv e = true) :
    chunksOf l = [] := by
  induction l with
  | nil => rfl
  | cons hd tl ih =>
    have h1 := h hd (List.mem_cons_self hd tl)
    have h2 : ∀ e ∈ tl, pureCacheEv e = true := fun e he => h e (List.mem_cons_of_mem hd he)
    have ih2 := ih h2
    cases hd <;> simp_all [chunksOf, pureCacheEv]

theorem not_complete_of_pure {l : List Ev} (h : ∀ e ∈ l, pureCacheEv e = true)
    (f : String) : Ev.complete f ∉ l := by
  intro hm
  have := h _ hm
  simp [pureCacheEv] at this

theorem complete_not_mem_chunks (f : String) (cs : List String) :
    Ev.complete f ∉ cs.map Ev.chunk := by
  simp

theorem exchangeAppended_messages (env : Env) (session : SessionDoc)
    (message full : String) :
    (exchangeAppended env session message full).messages = session.messages ++
      [⟨Role.user, message, env.now⟩, ⟨Role.assistant, full, env.now⟩] := rfl

theorem cmp_history (env : Env) (w1 : World) (pid uid message : String)
    (session : SessionDoc) (tr : List Ev)
    (hm : session.messages = getChatHistory w1 pid uid)
    (htr : ∀ e ∈ tr, pureCacheEv e = true) :
    (∃ f, Ev.complete f ∈ (chatModelPhase env w1 pid uid message session tr).2 ∧
       getChatHistory (chatModelPhase env w1 pid uid message session tr).1 pid uid =
         getChatHistory w1 pid uid ++
           [⟨Role.user, message, env.now⟩, ⟨Role.assistant, f, env.now⟩]) ∨
    ((∀ f, Ev.complete f ∉ (chatModelPhase env w1 pid uid message session tr).2) ∧
       getChatHistory (chatModelPhase env w1 pid uid message session tr).1 pid uid =
         getChatHistory w1 pid uid) := by
  unfold chatModelPhase
  cases hs : env.stream with
  | failAfter cs =>
    right
    constructor
    · intro f hf
      rcases List.mem_append.mp hf with h1 | h1
      · rcases List.mem_append.mp h1 with h2 | h2
        · exact not_complete_of_pure htr f h2
        · exact complete_not_mem_chunks f cs h2
      · simp at h1
    · rfl
  | ok cs =>
    dsimp only
    by_cases hsave : env.saveOk = true
    · rw [if_pos hsave]
      left
      refine ⟨String.join cs, ?_, ?_⟩
      · simp
      · show getChatHistory (saveSessionW w1 pid uid _) pid uid = _
        rw [getChatHistory_save_self, exchangeAppended_messages, hm]
    · rw [if_neg hsave]
      right
      constructor
      · intro f hf
        rcases List.mem_append.mp hf with h1 | h1
        · rcases List.mem_append.mp h1 with h2 | h2
          · exact not_complete_of_pure htr f h2
          · exact complete_not_mem_chunks f cs h2
        · simp at h1
      · rfl

theorem cmp_history_ne (env : Env) (w1 : World) (pid uid message : String)
    (session : SessionDoc) (tr : List Ev) (pid' uid' : String)
    (h : (pid', uid') ≠ (pid, uid)) :
    getChatHistory (chatModelPhase env w1 pid uid message session tr).1 pid' uid' =
      getChatHistory w1 pid' uid' := by
  unfold chatModelPhase
  cases hs : env.stream with
  | failAfter cs => rfl
  | ok cs =>
    dsimp only
    by_cases hsave : env.saveOk = true
    · rw [if_pos hsave]
      exact getChatHistory_save_ne w1 pid uid _ pid' uid' h
    · rw [if_neg hsave]

theorem cmp_complete (env : Env) (w1 : World) (pid uid message : String)
    (session : SessionDoc) (tr : List Ev)
    (htr : ∀ e ∈ tr, pureCacheEv e = true) (f : String)
    (hf : Ev.complete f ∈ (chatModelPhase env w1 pid uid message session tr).2) :
    String.join (chunksOf (chatModelPhase env w1 pid uid message session tr).2) = f := by
  unfold chatModelPhase at hf ⊢
  revert hf
  cases hs : env.stream with
  | failAfter cs =>
    intro hf
    exfalso
    rcases List.mem_append.mp hf with h1 | h1
    · rcases List.mem_append.mp h1 with h2 | h2
      · exact not_complete_of_pure htr f h2
      · exact complete_not_mem_chunks f cs h2
    · simp at h1
  | ok cs =>
    dsimp only
    by_cases hsave : env.saveOk = true
    · rw [if_pos hsave]
      intro hf
      have hfeq : f = String.join cs := by
        rcases List.mem_append.mp hf with h1 | h1
        · rcases List.mem_append.mp h1 with h2 | h2
          · exact absurd h2 (not_complete_of_pure htr f)
          · exact absurd h2 (complete_not_mem_chunks f cs)
        · simp at h1
          exact h1
      subst hfeq
      rw [chunksOf_append, chunksOf_append, chunksOf_pure tr htr, chunksOf_map_chunk]
      simp [chunksOf]
    · rw [if_neg hsave]
      intro hf
      exfalso
      rcases List.mem_append.mp hf with h1 | h1
      · rcases List.mem_append.mp h1 with h2 | h2
        · exact not_complete_of_pure htr f h2
        · exact complete_not_mem_chunks f cs h2
      · simp at h1

theorem chatWithEnsure_err (env : Env) (pid uid message : String) (eo : EnsureOut)
    (h : eo.res = .error ()) :
    chatWithEnsure env pid uid message eo =
      (eo.w, eo.tr ++ [Ev.error "Failed to process chat message"]) := by
  unfold chatWithEnsure
  rw [h]

theorem chatWithEnsure_truthy_getfail (env : Env) (pid uid message : String)
    (eo : EnsureOut) (cn : Option String) (session : SessionDoc)
    (h : eo.res = .ok (cn, session)) (hty : truthyStr cn = true)
    (hcg : env.chatGetOk = false) :
    chatWithEnsure env pid uid message eo =
      (eo.w, eo.tr ++ [Ev.remoteGet (cn.getD ""),
                       Ev.error "Failed to process chat message"]) := by
  simp [chatWithEnsure, h, hty, hcg]

theorem chatWithEnsure_truthy_get (env : Env) (pid uid message : String)
    (eo : EnsureOut) (cn : Option String) (session : SessionDoc)
    (h : eo.res = .ok (cn, session)) (hty : truthyStr cn = true)
    (hcg : env.chatGetOk = true) :
    chatWithEnsure env pid uid message eo =
      chatModelPhase env eo.w pid uid message session
        (eo.tr ++ [Ev.remoteGet (cn.getD "")]) := by
  simp [chatWithEnsure, h, hty, hcg]

theorem chatWithEnsure_falsy (env : Env) (pid uid message : String)
    (eo : EnsureOut) (cn : Option String) (session : SessionDoc)
    (h : eo.res = .ok (cn, session)) (hty : truthyStr cn = false) :
    chatWithEnsure env pid uid message eo =
      chatModelPhase env eo.w pid uid message session eo.tr := by
  simp [chatWithEnsure, h, hty]

theorem chat_eq_throw (env : Env) (w : World) (pid uid message : String) (u : Unit)
    (hp : getPaperForAI env w pid uid = .error u) :
    chatWithPaperStream env w pid uid message =
      (w, [Ev.error "Failed to process chat message"]) := by
  unfold chatWithPaperStream
  rw [hp]

theorem chat_eq_err (env : Env) (w : World) (pid uid message e : String)
    (hp : getPaperForAI env w pid uid = .ok (.err e)) :
    chatWithPaperStream env w pid uid message = (w, [Ev.error e]) := by
  unfold chatWithPaperStream
  rw [hp]

theorem chat_eq_resolved (env : Env) (w : World) (pid uid message : String)
    (paper : PaperDoc) (pdf : String)
    (hp : getPaperForAI env w pid uid = .ok (.ok paper pdf)) :
    chatWithPaperStream env w pid uid message =
      chatWithEnsure env pid uid message (getOrCreateCache env w pid uid) := by
  unfold chatWithPaperStream
  rw [hp]

/-- Leaf-level decomposition of one chat invocation: an early error leaving
the store untouched, an error after the ensure step, or the streaming tail
run on a session whose messages equal the stored history. -/
theorem chat_cases (env : Env) (w : World) (pid uid message : String) :
    (∃ e, chatWithPaperStream env w pid uid message = (w, [Ev.error e])) ∨
    (∃ w1 tr e, (∀ ev ∈ tr, pureCacheEv ev = true) ∧
       getChatHistory w1 pid uid = getChatHistory w pid uid ∧
       (∀ pid' uid', (pid', uid') ≠ (pid, uid) →
         getChatHistory w1 pid' uid' = getChatHistory w pid' uid') ∧
       chatWithPaperStream env w pid uid message = (w1, tr ++ [Ev.error e])) ∨
    (∃ w1 tr session, (∀ ev ∈ tr, pureCacheEv ev = true) ∧
       getChatHistory w1 pid uid = getChatHistory w pid uid ∧
       (∀ pid' uid', (pid', uid') ≠ (pid, uid) →
         getChatHistory w1 pid' uid' = getChatHistory w pid' uid') ∧
       session.messages = getChatHistory w pid uid ∧
       chatWithPaperStream env w pid uid message =
         chatModelPhase env w1 pid uid message session tr) := by
  cases hp : getPaperForAI env w pid uid with
  | error u => exact Or.inl ⟨_, chat_eq_throw env w pid uid message u hp⟩
  | ok pf =>
    cases pf with
    | err e => exact Or.inl ⟨e, chat_eq_err env w pid uid message e hp⟩
    | ok paper pdf =>
      have hres0 := chat_eq_resolved env w pid uid message paper pdf hp
      have hh := ensure_history env w pid uid
      have hhne := ensure_history_ne env w pid uid
      have htr := ensure_tr_pure env w pid uid
      cases hres : (getOrCreateCache env w pid uid).res with
      | error u =>
        right; left
        refine ⟨(getOrCreateCache env w pid uid).w, (getOrCreateCache env w pid uid).tr,
          "Failed to process chat message", htr, hh,
          (fun pid' uid' hne => hhne pid' uid' hne), ?_⟩
        rw [hres0]
        exact chatWithEnsure_err env pid uid message _ (by rw [hres])
      | ok p =>
        obtain ⟨cacheName, session⟩ := p
        have hsm : session.messages = getChatHistory w pid uid :=
          ensure_res_messages env w pid uid cacheName session hres
        by_cases hty : truthyStr cacheName = true
        · by_cases hcg : env.chatGetOk = true
          · right; right
            refine ⟨(getOrCreateCache env w pid uid).w,
              (getOrCreateCache env w pid uid).tr ++ [Ev.remoteGet (cacheName.getD "")],
              session, ?_, hh, (fun pid' uid' hne => hhne pid' uid' hne), hsm, ?_⟩
            · intro ev hev
              rcases List.mem_append.mp hev with h1 | h1
              · exact htr ev h1
              · simp at h1; subst h1; rfl
            · rw [hres0]
              exact chatWithEnsure_truthy_get env pid uid message _ cacheName session hres hty hcg
          · right; left
            refine ⟨(getOrCreateCache env w pid uid).w,
              (getOrCreateCache env w pid uid).tr ++ [Ev.remoteGet (cacheName.getD "")],
              "Failed to process chat message", ?_, hh,
              (fun pid' uid' hne => hhne pid' uid' hne), ?_⟩
            · intro ev hev
              rcases List.mem_append.mp hev with h1 | h1
              · exact htr ev h1
              · simp at h1; subst h1; rfl
            · rw [hres0,
                chatWithEnsure_truthy_getfail env pid uid message _ cacheName session hres hty
                  (by simpa using hcg)]
              simp
        · right; right
          refine ⟨(getOrCreateCache env w pid uid).w, (getOrCreateCache env w pid uid).tr,
            session, htr, hh, (fun pid' uid' hne => hhne pid' uid' hne), hsm, ?_⟩
          rw [hres0]
          exact chatWithEnsure_falsy env pid uid message _ cacheName session hres
            (by simpa using hty)

theorem chat_step_history (env : Env) (w : World) (pid uid message : String) :
    (∃ f, Ev.complete f ∈ (chatWithPaperStream env w pid uid message).2 ∧
       getChatHistory (chatWithPaperStream env w pid uid message).1 pid uid =
         getChatHistory w pid uid ++
           [⟨Role.user, message, env.now⟩, ⟨Role.assistant, f, env.now⟩]) ∨
    ((∀ f, Ev.complete f ∉ (chatWithPaperStream env w pid uid message).2) ∧
       getChatHistory (chatWithPaperStream env w pid uid message).1 pid uid =
         getChatHistory w pid uid) := by
  rcases chat_cases env w pid uid message with ⟨e, hc⟩ | ⟨w1, tr, e, htr, hh, _, hc⟩ |
    ⟨w1, tr, session, htr, hh, _, hsm, hc⟩
  · right
    rw [hc]
    exact ⟨fun f hf => by simp at hf, rfl⟩
  · right
    rw [hc]
    constructor
    · intro f hf
      rcases List.mem_append.mp hf with h1 | h1
      · exact not_complete_of_pure htr f h1
      · simp at h1
    · exact hh
  · rw [hc]
    have hm' : session.messages = getChatHistory w1 pid uid := hsm.trans hh.symm
    rcases cmp_history env w1 pid uid message session tr hm' htr with
      ⟨f, hfin, hmsg⟩ | ⟨hn, hmsg⟩
    · left; exact ⟨f, hfin, by rw [hmsg, hh]⟩
    · right; exact ⟨hn, by rw [hmsg, hh]⟩

theorem chat_step_frame (env : Env) (w : World) (pid uid message pid' uid' : String)
    (hne : (pid', uid') ≠ (pid, uid)) :
    getChatHistory (chatWithPaperStream env w pid uid message).1 pid' uid' =
      getChatHistory w pid' uid' := by
  rcases chat_cases env w pid uid message with ⟨e, hc⟩ | ⟨w1, tr, e, htr, hh, hfr, hc⟩ |
    ⟨w1, tr, session, htr, hh, hfr, hsm, hc⟩
  · rw [hc]
  · rw [hc]; exact hfr pid' uid' hne
  · rw [hc, cmp_history_ne env w1 pid uid message session tr pid' uid' hne]
    exact hfr pid' uid' hne

theorem chat_step_complete (env : Env) (w : World) (pid uid message f : String)
    (hf : Ev.complete f ∈ (chatWithPaperStream env w pid uid message).2) :
    String.join (chunksOf (chatWithPaperStream env w pid uid message).2) = f := by
  rcases chat_cases env w pid uid message with ⟨e, hc⟩ | ⟨w1, tr, e, htr, hh, hfr, hc⟩ |
    ⟨w1, tr, session, htr, hh, hfr, hsm, hc⟩
  · rw [hc] at hf; simp at hf
  · rw [hc] at hf
    exfalso
    rcases List.mem_append.mp hf with h1 | h1
    · exact not_complete_of_pure htr f h1
    · simp at h1
  · rw [hc] at hf ⊢
    exact cmp_complete env w1 pid uid message session tr htr f hf

theorem chat_step_even (env : Env) (w : World) (pid uid message : String)
    (hw : allEven w) : allEven (chatWithPaperStream env w pid uid message).1 := by
  intro pid' uid'
  by_cases hk : (pid', uid') = (pid, uid)
  · have h1 : pid' = pid := congrArg Prod.fst hk
    have h2 : uid' = uid := congrArg Prod.snd hk
    subst h1; subst h2
    rcases chat_step_history env w pid' uid' message with ⟨f, _, hmsg⟩ | ⟨_, hmsg⟩
    · have h2 : Even ((getChatHistory w pid' uid').length + 2) :=
        (hw pid' uid').add (by decide)
      simpa [hmsg, List.length_append] using h2
    · rw [hmsg]; exact hw pid' uid'
  · rw [chat_step_frame env w pid uid message pid' uid' hk]
    exact hw pid' uid'

theorem runChats_even (calls : List ChatCall) (w : World) (hw : allEven w) :
    allEven (runChats calls w) := by
  induction calls generalizing w with
  | nil => exact hw
  | cons c rest ih => exact ih _ (chat_step_even c.env w c.pid c.uid c.message hw)

theorem summary_complete (env : Env) (w : World) (pid uid f : String)
    (hf : Ev.complete f ∈ (generateSummaryStream env w pid uid).2) :
    String.join (chunksOf (generateSummaryStream env w pid uid).2) = f := by
  unfold generateSummaryStream at hf ⊢
  revert hf
  cases hp : getPaperForAI env w pid uid with
  | error u => intro hf; simp at hf
  | ok pf =>
    cases pf with
    | err e => intro hf; simp at hf
    | ok paper pdf =>
      cases hs : env.stream with
      | failAfter cs =>
        intro hf
        exfalso
        rcases List.mem_append.mp hf with h1 | h1
        · exact complete_not_mem_chunks f cs h1
        · simp at h1
      | ok cs =>
        dsimp only
        by_cases hsave : env.saveOk = true
        · rw [if_pos hsave]
          intro hf
          have hfeq : f = String.join cs := by
            rcases List.mem_append.mp hf with h1 | h1
            · exact absurd h1 (complete_not_mem_chunks f cs)
            · simpa using h1
          subst hfeq
          rw [chunksOf_append, chunksOf_map_chunk]
          simp [chunksOf]
        · rw [if_neg hsave]
          intro hf
          exfalso
          rcases List.mem_append.mp hf with h1 | h1
          · exact complete_not_mem_chunks f cs h1
          · simp at h1

theorem define_complete (env : Env) (w : World) (pid uid term : String)
    (sctx : Option String) (f : String)
    (hf : Ev.complete f ∈ (defineTermStream env w pid uid term sctx).2) :
    String.join (chunksOf (defineTermStream env w pid uid term sctx).2) = f := by
  unfold defineTermStream at hf ⊢
  revert hf
  cases hrag : getPaperForAIRag w pid uid with
  | mk a b =>
    cases a with
    | some e => intro hf; simp at hf
    | none =>
      cases b with
      | none => intro hf; simp at hf
      | some paper =>
        cases hs : env.stream with
        | failAfter cs =>
          intro hf
          exfalso
          rcases List.mem_append.mp hf with h1 | h1
          · exact complete_not_mem_chunks f cs h1
          · simp at h1
        | ok cs =>
          intro hf
          have hfeq : f = String.join cs := by
            rcases List.mem_append.mp hf with h1 | h1
            · exact absurd h1 (complete_not_mem_chunks f cs)
            · simpa using h1
          subst hfeq
          rw [chunksOf_append, chunksOf_map_chunk]
          simp [chunksOf]

def samplePaper : PaperDoc :=
  { userId := "u1", title := "Attention Is All You Need",
    fileUrl := some "https://files.example/p1.pdf", summary := none }

def sampleEnv : Env :=
  { now := 1000, fetchOk := true, pdfBase64 := "JVBERi0xLjQ=",
    remoteGetOk := true, createOutcome := .created (some "caches/abc"),
    chatGetOk := true, stream := .ok ["The ", "method ", "is transformers."],
    saveOk := true, remoteDeleteOk := true, localDeleteOk := true }

def sampleWorld : World := ⟨[("p1", samplePaper)], []⟩

def sampleSession : SessionDoc := ⟨[], some "caches/abc", some 999999⟩

def sampleSessionExpired : SessionDoc := ⟨[], some "caches/old", some 500⟩

def priorExchange : List ChatMessage :=
  [⟨Role.user, "hi", 1⟩, ⟨Role.assistant, "hello", 2⟩]

def sessionNoCache : SessionDoc := ⟨priorExchange, none, none⟩

/-- C3: the spec (and the client) expect the gateway to accept `ai:define`
and stream `ai:define:chunk` / `ai:define:complete` / `ai:define:error`, and
the engine operation `defineTermStream` exists; but `registerAIHandlers`
registers no `ai:define` listener and `ClientToServerEvents` has no such key,
so the server silently drops the event the client emits. -/
theorem aiDefine_gateway_unwired :
    "ai:define" ∈ clientEmittedEvents ∧
    "ai:define" ∉ serverInboundEvents ∧
    "ai:define" ∉ clientToServerEventNames := by
  decide

/-- C7: after a successful `clearChatHistory` the session record is gone and
`getChatHistory` returns `[]`, for every store and every resolution of the
best-effort remote deletion (which is swallowed). -/
theorem clear_history_completeness (env : Env) (w : World) (pid uid : String)
    (hl : env.localDeleteOk = true) :
    (clearChatHistory env w pid uid).2.2 = true ∧
    getChatHistory (clearChatHistory env w pid uid).1 pid uid = [] := by
  unfold clearChatHistory
  rw [if_pos hl]
  refine ⟨rfl, ?_⟩
  show getChatHistory (removeSessionW w pid uid) pid uid = []
  simp [getChatHistory, findSessionW, removeSessionW, assocLookup_remove_self]

theorem clear_history_completeness_witness :
    sampleEnv.localDeleteOk = true ∧
    (clearChatHistory sampleEnv ⟨[("p1", samplePaper)], [(("p1", "u1"), sampleSession)]⟩
        "p1" "u1").2.2 = true ∧
    getChatHistory (clearChatHistory sampleEnv
        ⟨[("p1", samplePaper)], [(("p1", "u1"), sampleSession)]⟩ "p1" "u1").1
      "p1" "u1" = [] :=
  ⟨by decide,
   (clear_history_completeness sampleEnv
     ⟨[("p1", samplePaper)], [(("p1", "u1"), sampleSession)]⟩ "p1" "u1" (by decide)).1,
   (clear_history_completeness sampleEnv
     ⟨[("p1", samplePaper)], [(("p1", "u1"), sampleSession)]⟩ "p1" "u1" (by decide)).2⟩

/-- C8: the gateway admits a connection only when the handshake carried a
truthy token that verified to a user, and that identity is the one bound to
the connection; a missing, expired, or invalid credential makes the
middleware error and the handshake is rejected with the coded error. -/
theorem handshake_requires_verified_identity :
    (∀ (t : Option String) (vo : VerifyOutcome) (u : AuthenticatedUser),
       gatewayAdmit t vo = some u → truthyStr t = true ∧ vo = VerifyOutcome.valid u) ∧
    (∀ vo, gatewayAdmit none vo = none) ∧
    (∀ t, gatewayAdmit t VerifyOutcome.expiredTok = none) ∧
    (∀ t, gatewayAdmit t VerifyOutcome.invalidTok = none) ∧
    (∀ t, gatewayAdmit t VerifyOutcome.otherErr = none) ∧
    (∀ vo, authenticateSocket none vo = Except.error "Authentication required") ∧
    (∀ t, truthyStr t = true →
       authenticateSocket t VerifyOutcome.expiredTok = Except.error "Token expired") ∧
    (∀ t, truthyStr t = true →
       authenticateSocket t VerifyOutcome.invalidTok = Except.error "Invalid token") := by
  refine ⟨?_, ?_, ?_, ?_, ?_, ?_, ?_, ?_⟩
  · intro t vo u h
    unfold gatewayAdmit authenticateSocket at h
    by_cases ht : truthyStr t = true
    · rw [if_pos ht] at h
      cases vo with
      | valid u' =>
        simp at h
        exact ⟨ht, by rw [h]⟩
      | expiredTok => simp at h
      | invalidTok => simp at h
      | otherErr => simp at h
    · rw [if_neg ht] at h
      simp at h
  · intro vo; rfl
  · intro t
    unfold gatewayAdmit authenticateSocket
    by_cases ht : truthyStr t = true
    · rw [if_pos ht]
    · rw [if_neg ht]
  · intro t
    unfold gatewayAdmit authenticateSocket
    by_cases ht : truthyStr t = true
    · rw [if_pos ht]
    · rw [if_neg ht]
  · intro t
    unfold gatewayAdmit authenticateSocket
    by_cases ht : truthyStr t = true
    · rw [if_pos ht]
    · rw [if_neg ht]
  · intro vo; rfl
  · intro t ht
    unfold authenticateSocket
    rw [if_pos ht]
  · intro t ht
    unfold authenticateSocket
    rw [if_pos ht]

theorem handshake_requires_verified_identity_witness :
    gatewayAdmit (some "jwt-token") (VerifyOutcome.valid ⟨"u1", "fb1", "a@b.c"⟩) =
      some ⟨"u1", "fb1", "a@b.c"⟩ ∧
    (truthyStr (some "jwt-token") = true ∧
      VerifyOutcome.valid ⟨"u1", "fb1", "a@b.c"⟩ =
        VerifyOutcome.valid ⟨"u1", "fb1", "a@b.c"⟩) :=
  ⟨by decide,
   handshake_requires_verified_identity.1 (some "jwt-token")
     (VerifyOutcome.valid ⟨"u1", "fb1", "a@b.c"⟩) ⟨"u1", "fb1", "a@b.c"⟩ (by decide)⟩

/-- C4: with a stored truthy handle whose expiry is in the future and a
successful remote confirmation, `getOrCreateCache` returns exactly the stored
handle and session, leaves the store untouched, performs only the remote
liveness check (no creation, no save), and a repeated call under the
resulting (unchanged) state returns the same. -/
theorem ensure_fastpath_idempotent (env : Env) (w : World) (pid uid : String)
    (s : SessionDoc) (n : String) (exp : Nat)
    (hs : findSessionW w pid uid = some s)
    (hn : s.geminiCacheName = some n) (hne : n ≠ "")
    (he : s.cacheExpiresAt = some exp) (hfut : env.now < exp)
    (hok : env.remoteGetOk = true) :
    getOrCreateCache env w pid uid = ⟨.ok (some n, s), w, [Ev.remoteGet n]⟩ ∧
    getOrCreateCache env ((getOrCreateCache env w pid uid).w) pid uid =
      getOrCreateCache env w pid uid := by
  have hlive : hasLiveHandle env s = true := by
    simp [hasLiveHandle, truthyStr, hn, he, hfut, hne]
  have h1 : getOrCreateCache env w pid uid = ⟨.ok (some n, s), w, [Ev.remoteGet n]⟩ := by
    unfold getOrCreateCache
    rw [gocs_eq_found w pid uid s hs]
    dsimp only
    unfold ensureCore
    rw [if_pos hlive, if_pos hok, hn]
    rfl
  refine ⟨h1, ?_⟩
  rw [h1]
  exact h1

theorem ensure_fastpath_idempotent_witness :
    findSessionW ⟨[], [(("p1", "u1"), sampleSession)]⟩ "p1" "u1" = some sampleSession ∧
    getOrCreateCache sampleEnv ⟨[], [(("p1", "u1"), sampleSession)]⟩ "p1" "u1" =
      ⟨.ok (some "caches/abc", sampleSession), ⟨[], [(("p1", "u1"), sampleSession)]⟩,
       [Ev.remoteGet "caches/abc"]⟩ :=
  ⟨by decide,
   (ensure_fastpath_idempotent sampleEnv ⟨[], [(("p1", "u1"), sampleSession)]⟩ "p1" "u1"
     sampleSession "caches/abc" 999999 (by decide) (by decide) (by decide) (by decide)
     (by decide) (by decide)).1⟩

/-- C5: with a stored expiry not in the future, `getOrCreateCache` never
returns the stored handle via the fast path: it skips the remote check
entirely and runs the creation tail; when creation yields a truthy name the
session is saved with it and with `cacheExpiresAt = now + 3600 * 1000` ms. -/
theorem ensure_expired_recreates (env : Env) (w : World) (pid uid : String)
    (s : SessionDoc) (exp : Nat)
    (hs : findSessionW w pid uid = some s)
    (he : s.cacheExpiresAt = some exp) (hpast : ¬ env.now < exp) :
    getOrCreateCache env w pid uid = createPathStep env w pid uid s [] ∧
    (∀ m, Ev.remoteGet m ∉ (getOrCreateCache env w pid uid).tr) ∧
    Ev.cacheCreate ∈ (getOrCreateCache env w pid uid).tr ∧
    (∀ n, env.createOutcome = CreateOutcome.created (some n) → n ≠ "" →
      (getOrCreateCache env w pid uid).res = .ok (some n, cacheStamped env s (some n)) ∧
      findSessionW (getOrCreateCache env w pid uid).w pid uid =
        some (cacheStamped env s (some n)) ∧
      (cacheStamped env s (some n)).cacheExpiresAt =
        some (env.now + CACHE_TTL_SECONDS * 1000)) := by
  have hlive : hasLiveHandle env s = false := by
    simp [hasLiveHandle, he, hpast]
  have h1 : getOrCreateCache env w pid uid = createPathStep env w pid uid s [] := by
    unfold getOrCreateCache
    rw [gocs_eq_found w pid uid s hs]
    dsimp only
    unfold ensureCore
    rw [if_neg (by rw [hlive]; simp)]
  refine ⟨h1, ?_, ?_, ?_⟩
  · intro m hm
    rw [h1] at hm
    rcases createPathStep_cases env w pid uid s [] with hc | ⟨cn, _, hc⟩ | ⟨cn, _, hc⟩ <;>
      rw [hc] at hm <;> simp at hm
  · rw [h1]
    rcases createPathStep_cases env w pid uid s [] with hc | ⟨cn, _, hc⟩ | ⟨cn, _, hc⟩ <;>
      rw [hc] <;> simp
  · intro n hco hne
    have hstep : createPathStep env w pid uid s [] =
        ⟨.ok (some n, cacheStamped env s (some n)),
         saveSessionW w pid uid (cacheStamped env s (some n)),
         [Ev.cacheCreate, Ev.sessionSave]⟩ := by
      unfold createPathStep
      rw [hco]
      simp [tryCreateCache, jsStrOrNull, hne, truthyStr]
    rw [h1, hstep]
    refine ⟨rfl, ?_, rfl⟩
    show findSessionW (saveSessionW w pid uid (cacheStamped env s (some n))) pid uid = _
    simp [findSessionW, saveSessionW, assocLookup_upsert_self]

theorem ensure_expired_recreates_witness :
    findSessionW ⟨[], [(("p1", "u1"), sampleSessionExpired)]⟩ "p1" "u1" =
      some sampleSessionExpired ∧
    Ev.cacheCreate ∈
      (getOrCreateCache sampleEnv ⟨[], [(("p1", "u1"), sampleSessionExpired)]⟩
        "p1" "u1").tr ∧
    findSessionW (getOrCreateCache sampleEnv
        ⟨[], [(("p1", "u1"), sampleSessionExpired)]⟩ "p1" "u1").w "p1" "u1" =
      some (cacheStamped sampleEnv sampleSessionExpired (some "caches/abc")) :=
  ⟨by decide,
   (ensure_expired_recreates sampleEnv ⟨[], [(("p1", "u1"), sampleSessionExpired)]⟩
     "p1" "u1" sampleSessionExpired 500 (by decide) (by decide) (by decide)).2.2.1,
   ((ensure_expired_recreates sampleEnv ⟨[], [(("p1", "u1"), sampleSessionExpired)]⟩
     "p1" "u1" sampleSessionExpired 500 (by decide) (by decide) (by decide)).2.2.2
     "caches/abc" (by decide) (by decide)).2.1⟩

theorem ensureCore_tooSmall_ok (env : Env) (session : SessionDoc) (w1 : World)
    (pid uid : String) (hco : env.createOutcome = CreateOutcome.tooSmall) :
    ∃ cn s, (ensureCore env session w1 pid uid).res = Except.ok (cn, s) := by
  unfold ensureCore
  by_cases h1 : hasLiveHandle env session = true
  · rw [if_pos h1]
    by_cases h2 : env.remoteGetOk = true
    · rw [if_pos h2]
      exact ⟨session.geminiCacheName, session, rfl⟩
    · rw [if_neg h2]
      refine ⟨none, cacheCleared session, ?_⟩
      unfold createPathStep
      rw [hco]
      rfl
  · rw [if_neg h1]
    refine ⟨none, session, ?_⟩
    unfold createPathStep
    rw [hco]
    rfl

/-- C6: for a document below the provider's minimum cacheable size the
creation step returns `null` rather than raising — `tryCreateCache` yields
`ok none` and `getOrCreateCache` never throws, whatever the stored state —
and a chat whose session holds no live handle still runs to successful
completion on the non-cached path (creation attempt is the only cache event,
all chunks stream, completion fires, the exchange is appended to the stored
history); whereas a creation failure not caused by undersize propagates as
an error: `tryCreateCache` throws, `getOrCreateCache` rethrows, and the chat
emits the error event with the history unchanged. -/
theorem undersized_chat_degrades :
    (∀ env : Env, env.createOutcome = CreateOutcome.tooSmall →
       tryCreateCache env.createOutcome = Except.ok none) ∧
    (∀ (env : Env) (w : World) (pid uid : String),
       env.createOutcome = CreateOutcome.tooSmall →
       ∃ cn s, (getOrCreateCache env w pid uid).res = Except.ok (cn, s)) ∧
    (∀ (env : Env) (w : World) (pid uid message : String) (p : PaperDoc)
       (cs : List String),
       env.createOutcome = CreateOutcome.tooSmall →
       (∀ s, findSessionW w pid uid = some s → hasLiveHandle env s = false) →
       findPaperW w pid = some p → p.userId = uid → truthyStr p.fileUrl = true →
       env.fetchOk = true → env.stream = StreamOutcome.ok cs → env.saveOk = true →
       (chatWithPaperStream env w pid uid message).2 =
         [Ev.cacheCreate] ++ cs.map Ev.chunk ++
           [Ev.sessionSave, Ev.complete (String.join cs)] ∧
       getChatHistory (chatWithPaperStream env w pid uid message).1 pid uid =
         getChatHistory w pid uid ++
           [⟨Role.user, message, env.now⟩,
            ⟨Role.assistant, String.join cs, env.now⟩]) ∧
    (∀ (env : Env) (w : World) (pid uid message : String) (p : PaperDoc),
       env.createOutcome = CreateOutcome.failure →
       (∀ s, findSessionW w pid uid = some s → hasLiveHandle env s = false) →
       findPaperW w pid = some p → p.userId = uid → truthyStr p.fileUrl = true →
       env.fetchOk = true →
       tryCreateCache env.createOutcome = Except.error () ∧
       (getOrCreateCache env w pid uid).res = Except.error () ∧
       (chatWithPaperStream env w pid uid message).2 =
         [Ev.cacheCreate, Ev.error "Failed to process chat message"] ∧
       getChatHistory (chatWithPaperStream env w pid uid message).1 pid uid =
         getChatHistory w pid uid) := by
  refine ⟨?_, ?_, ?_, ?_⟩
  · intro env hco
    rw [hco]
    rfl
  · intro env w pid uid hco
    unfold getOrCreateCache
    exact ensureCore_tooSmall_ok env _ _ pid uid hco
  · intro env w pid uid message p cs hco hlive hp hown hfile hfetch hstream hsave
    have hpfa : getPaperForAI env w pid uid = .ok (.ok p env.pdfBase64) := by
      unfold getPaperForAI
      rw [hp]
      dsimp only
      rw [if_pos hown, if_pos hfile, if_pos hfetch]
    cases hfs : findSessionW w pid uid with
    | some s =>
      have hlh : hasLiveHandle env s = false := hlive s hfs
      have hm : getOrCreateCache env w pid uid = ⟨.ok (none, s), w, [Ev.cacheCreate]⟩ := by
        unfold getOrCreateCache
        rw [gocs_eq_found w pid uid s hfs]
        dsimp only
        unfold ensureCore
        rw [if_neg (by rw [hlh]; simp)]
        unfold createPathStep
        rw [hco]
        rfl
      have hchat : chatWithPaperStream env w pid uid message =
          chatModelPhase env w pid uid message s [Ev.cacheCreate] := by
        rw [chat_eq_resolved env w pid uid message p env.pdfBase64 hpfa]
        rw [chatWithEnsure_falsy env pid uid message _ none s (by rw [hm])
          (by simp [truthyStr])]
        rw [hm]
      constructor
      · rw [hchat]
        unfold chatModelPhase
        rw [hstream]
        dsimp only
        rw [if_pos hsave]
      · rw [hchat]
        unfold chatModelPhase
        rw [hstream]
        dsimp only
        rw [if_pos hsave]
        show getChatHistory (saveSessionW w pid uid _) pid uid = _
        rw [getChatHistory_save_self, exchangeAppended_messages]
        simp [getChatHistory, hfs]
    | none =>
      have hm : getOrCreateCache env w pid uid =
          ⟨.ok (none, ⟨[], none, none⟩), saveSessionW w pid uid ⟨[], none, none⟩,
           [Ev.cacheCreate]⟩ := by
        unfold getOrCreateCache
        rw [gocs_eq_missing w pid uid hfs]
        dsimp only
        unfold ensureCore
        rw [if_neg (by simp [hasLiveHandle, truthyStr])]
        unfold createPathStep
        rw [hco]
        rfl
      have hchat : chatWithPaperStream env w pid uid message =
          chatModelPhase env (saveSessionW w pid uid ⟨[], none, none⟩) pid uid message
            ⟨[], none, none⟩ [Ev.cacheCreate] := by
        rw [chat_eq_resolved env w pid uid message p env.pdfBase64 hpfa]
        rw [chatWithEnsure_falsy env pid uid message _ none ⟨[], none, none⟩ (by rw [hm])
          (by simp [truthyStr])]
        rw [hm]
      constructor
      · rw [hchat]
        unfold chatModelPhase
        rw [hstream]
        dsimp only
        rw [if_pos hsave]
      · rw [hchat]
        unfold chatModelPhase
        rw [hstream]
        dsimp only
        rw [if_pos hsave]
        show getChatHistory (saveSessionW _ pid uid _) pid uid = _
        rw [getChatHistory_save_self, exchangeAppended_messages]
        simp [getChatHistory, hfs]
  · intro env w pid uid message p hco hlive hp hown hfile hfetch
    have hpfa : getPaperForAI env w pid uid = .ok (.ok p env.pdfBase64) := by
      unfold getPaperForAI
      rw [hp]
      dsimp only
      rw [if_pos hown, if_pos hfile, if_pos hfetch]
    have htc : tryCreateCache env.createOutcome = Except.error () := by
      rw [hco]
      rfl
    cases hfs : findSessionW w pid uid with
    | some s =>
      have hlh : hasLiveHandle env s = false := hlive s hfs
      have hm : getOrCreateCache env w pid uid = ⟨.error (), w, [Ev.cacheCreate]⟩ := by
        unfold getOrCreateCache
        rw [gocs_eq_found w pid uid s hfs]
        dsimp only
        unfold ensureCore
        rw [if_neg (by rw [hlh]; simp)]
        unfold createPathStep
        rw [hco]
        rfl
      have hchat : chatWithPaperStream env w pid uid message =
          (w, [Ev.cacheCreate, Ev.error "Failed to process chat message"]) := by
        rw [chat_eq_resolved env w pid uid message p env.pdfBase64 hpfa]
        rw [chatWithEnsure_err env pid uid message _ (by rw [hm])]
        rw [hm]
        rfl
      exact ⟨htc, by rw [hm], by rw [hchat], by rw [hchat]⟩
    | none =>
      have hm : getOrCreateCache env w pid uid =
          ⟨.error (), saveSessionW w pid uid ⟨[], none, none⟩, [Ev.cacheCreate]⟩ := by
        unfold getOrCreateCache
        rw [gocs_eq_missing w pid uid hfs]
        dsimp only
        unfold ensureCore
        rw [if_neg (by simp [hasLiveHandle, truthyStr])]
        unfold createPathStep
        rw [hco]
        rfl
      have hchat : chatWithPaperStream env w pid uid message =
          (saveSessionW w pid uid ⟨[], none, none⟩,
           [Ev.cacheCreate, Ev.error "Failed to process chat message"]) := by
        rw [chat_eq_resolved env w pid uid message p env.pdfBase64 hpfa]
        rw [chatWithEnsure_err env pid uid message _ (by rw [hm])]
        rw [hm]
        rfl
      refine ⟨htc, by rw [hm], by rw [hchat], ?_⟩
      rw [hchat]
      show getChatHistory (saveSessionW w pid uid _) pid uid = _
      rw [getChatHistory_save_self]
      simp [getChatHistory, hfs]

theorem undersized_chat_degrades_witness :
    tryCreateCache ({ sampleEnv with
        createOutcome := CreateOutcome.tooSmall }).createOutcome = Except.ok none ∧
    (chatWithPaperStream { sampleEnv with createOutcome := CreateOutcome.tooSmall }
        sampleWorld "p1" "u1" "What method was used?").2 =
      [Ev.cacheCreate] ++ (["The ", "method ", "is transformers."].map Ev.chunk) ++
        [Ev.sessionSave,
         Ev.complete (String.join ["The ", "method ", "is transformers."])] ∧
    tryCreateCache ({ sampleEnv with
        createOutcome := CreateOutcome.failure }).createOutcome = Except.error () ∧
    (chatWithPaperStream { sampleEnv with createOutcome := CreateOutcome.failure }
        sampleWorld "p1" "u1" "What method was used?").2 =
      [Ev.cacheCreate, Ev.error "Failed to process chat message"] :=
  ⟨undersized_chat_degrades.1 _ (by decide),
   (undersized_chat_degrades.2.2.1 { sampleEnv with createOutcome := CreateOutcome.tooSmall }
      sampleWorld "p1" "u1" "What method was used?" samplePaper
      ["The ", "method ", "is transformers."] (by decide)
      (fun s hs => by simp [sampleWorld, findSessionW, assocLookup] at hs)
      (by decide) (by decide) (by decide) (by decide) (by decide) (by decide)).1,
   (undersized_chat_degrades.2.2.2 { sampleEnv with createOutcome := CreateOutcome.failure }
      sampleWorld "p1" "u1" "What method was used?" samplePaper (by decide)
      (fun s hs => by simp [sampleWorld, findSessionW, assocLookup] at hs)
      (by decide) (by decide) (by decide) (by decide)).1,
   (undersized_chat_degrades.2.2.2 { sampleEnv with createOutcome := CreateOutcome.failure }
      sampleWorld "p1" "u1" "What method was used?" samplePaper (by decide)
      (fun s hs => by simp [sampleWorld, findSessionW, assocLookup] at hs)
      (by decide) (by decide) (by decide) (by decide)).2.2.1⟩

/-- C9: a paper owned by a different user and a wholly absent paper produce
the identical `Paper not found` outcome from `getPaperForAI`, and every
generation operation (chat, summarize, define) emits the identical single
error event in the two situations, so a non-owner cannot distinguish
existence. -/
theorem notfound_hides_existence (env : Env) (w1 w2 : World)
    (pid1 pid2 uid message term : String) (sctx : Option String) (p : PaperDoc)
    (h1 : findPaperW w1 pid1 = some p) (hown : p.userId ≠ uid)
    (h2 : findPaperW w2 pid2 = none) :
    getPaperForAI env w1 pid1 uid = getPaperForAI env w2 pid2 uid ∧
    getPaperForAI env w1 pid1 uid = Except.ok (PaperFetch.err "Paper not found") ∧
    chatWithPaperStream env w1 pid1 uid message = (w1, [Ev.error "Paper not found"]) ∧
    (chatWithPaperStream env w1 pid1 uid message).2 =
      (chatWithPaperStream env w2 pid2 uid message).2 ∧
    generateSummaryStream env w1 pid1 uid = (w1, [Ev.error "Paper not found"]) ∧
    (generateSummaryStream env w1 pid1 uid).2 =
      (generateSummaryStream env w2 pid2 uid).2 ∧
    defineTermStream env w1 pid1 uid term sctx = (w1, [Ev.error "Paper not found"]) ∧
    (defineTermStream env w1 pid1 uid term sctx).2 =
      (defineTermStream env w2 pid2 uid term sctx).2 := by
  have hpf1 : getPaperForAI env w1 pid1 uid = .ok (.err "Paper not found") := by
    unfold getPaperForAI
    rw [h1]
    dsimp only
    rw [if_neg hown]
  have hpf2 : getPaperForAI env w2 pid2 uid = .ok (.err "Paper not found") := by
    unfold getPaperForAI
    rw [h2]
  have hrag1 : getPaperForAIRag w1 pid1 uid = (some "Paper not found", none) := by
    unfold getPaperForAIRag
    rw [h1]
    dsimp only
    rw [if_neg hown]
  have hrag2 : getPaperForAIRag w2 pid2 uid = (some "Paper not found", none) := by
    unfold getPaperForAIRag
    rw [h2]
  have hchat1 := chat_eq_err env w1 pid1 uid message "Paper not found" hpf1
  have hchat2 := chat_eq_err env w2 pid2 uid message "Paper not found" hpf2
  have hsum1 : generateSummaryStream env w1 pid1 uid = (w1, [Ev.error "Paper not found"]) := by
    unfold generateSummaryStream
    rw [hpf1]
  have hsum2 : generateSummaryStream env w2 pid2 uid = (w2, [Ev.error "Paper not found"]) := by
    unfold generateSummaryStream
    rw [hpf2]
  have hdef1 : defineTermStream env w1 pid1 uid term sctx =
      (w1, [Ev.error "Paper not found"]) := by
    unfold defineTermStream
    rw [hrag1]
  have hdef2 : defineTermStream env w2 pid2 uid term sctx =
      (w2, [Ev.error "Paper not found"]) := by
    unfold defineTermStream
    rw [hrag2]
  refine ⟨hpf1.trans hpf2.symm, hpf1, hchat1, ?_, hsum1, ?_, hdef1, ?_⟩
  · rw [hchat1, hchat2]
  · rw [hsum1, hsum2]
  · rw [hdef1, hdef2]

theorem notfound_hides_existence_witness :
    findPaperW ⟨[("p9", { samplePaper with userId := "u2" })], []⟩ "p9" = 
      some { samplePaper with userId := "u2" } ∧
    getPaperForAI sampleEnv ⟨[("p9", { samplePaper with userId := "u2" })], []⟩ "p9" "u1" =
      getPaperForAI sampleEnv ⟨[], []⟩ "p9" "u1" ∧
    (chatWithPaperStream sampleEnv ⟨[("p9", { samplePaper with userId := "u2" })], []⟩
        "p9" "u1" "q").2 =
      (chatWithPaperStream sampleEnv ⟨[], []⟩ "p9" "u1" "q").2 :=
  ⟨by decide,
   (notfound_hides_existence sampleEnv ⟨[("p9", { samplePaper with userId := "u2" })], []⟩
     ⟨[], []⟩ "p9" "p9" "u1" "q" "term" none { samplePaper with userId := "u2" }
     (by decide) (by decide) (by decide)).1,
   (notfound_hides_existence sampleEnv ⟨[("p9", { samplePaper with userId := "u2" })], []⟩
     ⟨[], []⟩ "p9" "p9" "u1" "q" "term" none { samplePaper with userId := "u2" }
     (by decide) (by decide) (by decide)).2.2.2.1⟩

/-- C10: when the pre-chat ensure step creates a new cache, the session is
saved with the new `geminiCacheName` and `cacheExpiresAt` before the model
call (`sessionSave` precedes every chunk in the trace); if the stream then
fails, the call emits the error, appends no messages, yet the stored session
durably carries the new cache fields — failure atomicity covers only the
message list. -/
theorem chat_failure_keeps_cache_mutation (env : Env) (w : World)
    (pid uid message : String) (p : PaperDoc) (s : SessionDoc) (n : String)
    (cs : List String)
    (hp : findPaperW w pid = some p) (hown : p.userId = uid)
    (hfile : truthyStr p.fileUrl = true) (hfetch : env.fetchOk = true)
    (hs : findSessionW w pid uid = some s) (hnone : s.geminiCacheName = none)
    (hco : env.createOutcome = CreateOutcome.created (some n)) (hne : n ≠ "")
    (hget : env.chatGetOk = true)
    (hstream : env.stream = StreamOutcome.failAfter cs) :
    (chatWithPaperStream env w pid uid message).2 =
      [Ev.cacheCreate, Ev.sessionSave, Ev.remoteGet n] ++ cs.map Ev.chunk ++
        [Ev.error "Failed to process chat message"] ∧
    findSessionW (chatWithPaperStream env w pid uid message).1 pid uid =
      some (cacheStamped env s (some n)) ∧
    getChatHistory (chatWithPaperStream env w pid uid message).1 pid uid = s.messages ∧
    (cacheStamped env s (some n)).geminiCacheName = some n ∧
    (cacheStamped env s (some n)).cacheExpiresAt =
      some (env.now + CACHE_TTL_SECONDS * 1000) := by
  have hpfa : getPaperForAI env w pid uid = .ok (.ok p env.pdfBase64) := by
    unfold getPaperForAI
    rw [hp]
    dsimp only
    rw [if_pos hown, if_pos hfile, if_pos hfetch]
  have hm : getOrCreateCache env w pid uid =
      ⟨.ok (some n, cacheStamped env s (some n)),
       saveSessionW w pid uid (cacheStamped env s (some n)),
       [Ev.cacheCreate, Ev.sessionSave]⟩ := by
    unfold getOrCreateCache
    rw [gocs_eq_found w pid uid s hs]
    dsimp only
    unfold ensureCore
    rw [if_neg (by simp [hasLiveHandle, truthyStr, hnone])]
    unfold createPathStep
    rw [hco]
    simp [tryCreateCache, jsStrOrNull, hne, truthyStr]
  have htruthy : truthyStr (some n) = true := by
    simp [truthyStr, hne]
  have hchat : chatWithPaperStream env w pid uid message =
      chatModelPhase env (saveSessionW w pid uid (cacheStamped env s (some n)))
        pid uid message (cacheStamped env s (some n))
        ([Ev.cacheCreate, Ev.sessionSave] ++ [Ev.remoteGet n]) := by
    rw [chat_eq_resolved env w pid uid message p env.pdfBase64 hpfa]
    rw [chatWithEnsure_truthy_get env pid uid message _ (some n)
      (cacheStamped env s (some n)) (by rw [hm]) htruthy hget]
    rw [hm]
    rfl
  rw [hchat]
  unfold chatModelPhase
  rw [hstream]
  dsimp only
  refine ⟨by simp, ?_, ?_, rfl, rfl⟩
  · show findSessionW (saveSessionW w pid uid (cacheStamped env s (some n))) pid uid = _
    simp [findSessionW, saveSessionW, assocLookup_upsert_self]
  · show getChatHistory (saveSessionW w pid uid (cacheStamped env s (some n))) pid uid = _
    rw [getChatHistory_save_self]
    rfl

theorem chat_failure_keeps_cache_mutation_witness :
    findSessionW ⟨[("p1", samplePaper)], [(("p1", "u1"), sessionNoCache)]⟩ "p1" "u1" =
      some sessionNoCache ∧
    (chatWithPaperStream { sampleEnv with stream := StreamOutcome.failAfter ["par"] }
        ⟨[("p1", samplePaper)], [(("p1", "u1"), sessionNoCache)]⟩ "p1" "u1" "q").2 =
      [Ev.cacheCreate, Ev.sessionSave, Ev.remoteGet "caches/abc"] ++
        (["par"].map Ev.chunk) ++ [Ev.error "Failed to process chat message"] ∧
    findSessionW (chatWithPaperStream
        { sampleEnv with stream := StreamOutcome.failAfter ["par"] }
        ⟨[("p1", samplePaper)], [(("p1", "u1"), sessionNoCache)]⟩ "p1" "u1" "q").1
      "p1" "u1" =
      some (cacheStamped { sampleEnv with stream := StreamOutcome.failAfter ["par"] }
        sessionNoCache (some "caches/abc")) :=
  ⟨by decide,
   (chat_failure_keeps_cache_mutation
     { sampleEnv with stream := StreamOutcome.failAfter ["par"] }
     ⟨[("p1", samplePaper)], [(("p1", "u1"), sessionNoCache)]⟩ "p1" "u1" "q"
     samplePaper sessionNoCache "caches/abc" ["par"] (by decide) (by decide)
     (by decide) (by decide) (by decide) (by decide) (by decide) (by decide)
     (by decide) (by decide)).1,
   (chat_failure_keeps_cache_mutation
     { sampleEnv with stream := StreamOutcome.failAfter ["par"] }
     ⟨[("p1", samplePaper)], [(("p1", "u1"), sessionNoCache)]⟩ "p1" "u1" "q"
     samplePaper sessionNoCache "caches/abc" ["par"] (by decide) (by decide)
     (by decide) (by decide) (by decide) (by decide) (by decide) (by decide)
     (by decide) (by decide)).2.1⟩

/-- C1: one chat invocation either completes — and then the persisted history
for its `(paperId, userId)` grows by exactly the pair (user message, then
assistant reply equal to the completion text), appended together by the
single session save — or it fails (no completion event) and the persisted
history is unchanged; consequently any sequence of invocations preserves
even length of every stored history (an empty store starts even), so no call
leaves an odd-length list or a user-only entry. -/
theorem chat_exchange_append_atomic_even :
    (∀ (env : Env) (w : World) (pid uid message : String),
      (∃ f, Ev.complete f ∈ (chatWithPaperStream env w pid uid message).2 ∧
         getChatHistory (chatWithPaperStream env w pid uid message).1 pid uid =
           getChatHistory w pid uid ++
             [⟨Role.user, message, env.now⟩, ⟨Role.assistant, f, env.now⟩]) ∨
      ((∀ f, Ev.complete f ∉ (chatWithPaperStream env w pid uid message).2) ∧
         getChatHistory (chatWithPaperStream env w pid uid message).1 pid uid =
           getChatHistory w pid uid)) ∧
    (∀ (calls : List ChatCall) (w : World), allEven w → allEven (runChats calls w)) :=
  ⟨chat_step_history, runChats_even⟩

theorem chat_exchange_append_atomic_even_witness :
    allEven sampleWorld ∧
    allEven (runChats [⟨sampleEnv, "p1", "u1", "What method was used?"⟩] sampleWorld) := by
  have h : allEven sampleWorld := by
    intro pid uid
    simp [allEven, getChatHistory, findSessionW, sampleWorld, assocLookup]
  exact ⟨h, chat_exchange_append_atomic_even.2 _ _ h⟩

/-- C2: in any invocation that reaches completion, the concatenation of the
chunk events in emission order equals exactly the completion text — for chat,
for summarize, and for define-term. -/
theorem stream_chunks_concat_complete :
    (∀ (env : Env) (w : World) (pid uid message f : String),
       Ev.complete f ∈ (chatWithPaperStream env w pid uid message).2 →
       String.join (chunksOf (chatWithPaperStream env w pid uid message).2) = f) ∧
    (∀ (env : Env) (w : World) (pid uid f : String),
       Ev.complete f ∈ (generateSummaryStream env w pid uid).2 →
       String.join (chunksOf (generateSummaryStream env w pid uid).2) = f) ∧
    (∀ (env : Env) (w : World) (pid uid term : String) (sctx : Option String)
       (f : String),
       Ev.complete f ∈ (defineTermStream env w pid uid term sctx).2 →
       String.join (chunksOf (defineTermStream env w pid uid term sctx).2) = f) :=
  ⟨chat_step_complete, summary_complete, define_complete⟩

theorem stream_chunks_concat_complete_witness :
    Ev.complete "The method is transformers." ∈
      (chatWithPaperStream sampleEnv sampleWorld "p1" "u1" "What method was used?").2 ∧
    String.join (chunksOf
      (chatWithPaperStream sampleEnv sampleWorld "p1" "u1" "What method was used?").2) =
      "The method is transformers." :=
  ⟨by decide,
   stream_chunks_concat_complete.1 sampleEnv sampleWorld "p1" "u1"
     "What method was used?" "The method is transformers." (by decide)⟩

end RA
